import Mathlib

/-!
Shallow embedding of the SSE GUI mod core (render.cpp, input.cpp / skse build)
and proofs of the specified properties.

Pointers and window handles are modelled as natural numbers with `0` standing
for the null pointer / null handle.  `HRESULT` values are modelled as integers
with `0` standing for `DI_OK` / `S_OK`.  Foreign calls (the detoured original
functions, the wrapped COM device) are modelled by passing their observable
outputs as explicit parameters; invocations of registered callbacks are
modelled as explicit event traces.
-/

/-- Machine pointer / window handle; `0` is the null pointer. -/
abbrev Ptr := Nat

/-- One entry of `render_t::device_history` (render.cpp, `struct device_record`):
the four handles captured from one intercepted `D3D11CreateDeviceAndSwapChain`
call. -/
structure device_record where
  chain   : Ptr
  device  : Ptr
  context : Ptr
  window  : Ptr
deriving DecidableEq, Repr

/-- The singleton `render_t dx` state of render.cpp.  The raw function-pointer
fields (`window_proc_orig`, `chain_present_orig`, `create_device_orig`) are not
stored here; the semantic functions below receive the behaviour of those
originals as explicit parameters. -/
structure render_t where
  device            : Ptr
  context           : Ptr
  chain             : Ptr
  window            : Ptr
  device_history    : List device_record
  render_listeners  : List Ptr
  message_listeners : List Ptr
  enable_rendering  : Bool
  enable_messaging  : Bool
deriving Repr

/-- The window-match part of the scan condition in `setup_window`:
`top_window && top_window == r.window && named_window && named_window == r.window`. -/
def window_match (top named : Ptr) (r : device_record) : Bool :=
  top != 0 && top == r.window && named != 0 && named == r.window

/-- The resource part of the scan condition in `setup_window`:
`r.context && r.device && r.chain`. -/
def resources_ok (r : device_record) : Bool :=
  r.context != 0 && r.device != 0 && r.chain != 0

/-- A record qualifies for activation when its window equals both supplied
handles and its three resource fields are non-null. -/
def qualifies (top named : Ptr) (r : device_record) : Bool :=
  window_match top named r && resources_ok r

/-- The four assignments in the body of `setup_window`'s scan loop:
`dx.window = r.window; dx.chain = r.chain; dx.context = r.context;
dx.device = r.device;`. -/
def bind_record (s : render_t) (r : device_record) : render_t :=
  { s with window := r.window, chain := r.chain, context := r.context, device := r.device }

/-- The `for (auto const& r: dx.device_history)` loop of `setup_window`
(render.cpp): on the first record passing both condition tiers it copies the
record's four fields into the active binding and breaks with success. -/
def setup_scan (s : render_t) (top named : Ptr) : List device_record → render_t × Bool
  | [] => (s, false)
  | r :: rest =>
    if window_match top named r then
      if resources_ok r then (bind_record s r, true)
      else setup_scan s top named rest
    else setup_scan s top named rest

/-- The device-selection portion of `setup_window` (render.cpp): the scan runs
only when `dx.device_history.size ()` is non-zero; the returned flag is
`device_selected`.  On failure the function sets the error string and returns
early, leaving the active binding untouched. -/
def setup_window_select (s : render_t) (top named : Ptr) : render_t × Bool :=
  if s.device_history.length != 0 then setup_scan s top named s.device_history
  else (s, false)

/-- The tuple-extraction of the detoured `create_device` (render.cpp):
`render_t::device_record r = {};` followed by the four guarded assignments.
Each argument is `none` when the corresponding pointer argument of the call
was null; otherwise it carries the pointed-to value (for `pSwapChainDesc`,
the `OutputWindow` field). -/
def extract_record (pSwapChainDesc ppSwapChain ppDevice ppImmediateContext : Option Ptr) :
    device_record :=
  { window  := pSwapChainDesc.getD 0,
    chain   := ppSwapChain.getD 0,
    device  := ppDevice.getD 0,
    context := ppImmediateContext.getD 0 }

/-- The detoured `create_device` (render.cpp) after the original call returned
`hres` and produced the given outputs: appends the extracted record to the
history exactly when all four fields are non-null, and returns `hres`
unchanged. -/
def create_device (s : render_t) (hres : Int)
    (pSwapChainDesc ppSwapChain ppDevice ppImmediateContext : Option Ptr) :
    render_t × Int :=
  let r := extract_record pSwapChainDesc ppSwapChain ppDevice ppImmediateContext
  if r.window != 0 && r.chain != 0 && r.device != 0 && r.context != 0 then
    ({ s with device_history := s.device_history ++ [r] }, hres)
  else (s, hres)

/-- The scan loop returns exactly the first qualifying record of the list. -/
theorem setup_scan_eq_find (s : render_t) (top named : Ptr) (l : List device_record) :
    setup_scan s top named l =
      (match l.find? (qualifies top named) with
       | some r => (bind_record s r, true)
       | none => (s, false)) := by
  induction l with
  | nil => rfl
  | cons r rest ih =>
    by_cases hw : window_match top named r
    · by_cases hr : resources_ok r
      · simp [setup_scan, hw, hr, List.find?, qualifies]
      · simp [setup_scan, hw, hr, List.find?, qualifies, ih]
    · simp [setup_scan, hw, List.find?, qualifies, ih]

/-- The selection part of `setup_window` is the scan of the full history (the
`if (dx.device_history.size ())` guard is redundant: the scan of an empty
history already fails). -/
theorem setup_window_select_eq_scan (s : render_t) (top named : Ptr) :
    setup_window_select s top named = setup_scan s top named s.device_history := by
  unfold setup_window_select
  cases h : s.device_history with
  | nil => simp [setup_scan]
  | cons a l => simp

/-- C1: `setup_window`'s scan over `device_history` selects the first record
whose window handle equals both the top-level visible window and the
title-matched window and whose context, device and chain fields are all
non-null, copying that record's four fields into the active binding; if no
record qualifies (in particular when the history is empty or either supplied
window handle is null) it reports failure and leaves the binding unchanged. -/
theorem setup_window_selects_first_qualified (s : render_t) (top named : Ptr) :
    (match s.device_history.find? (qualifies top named) with
     | some r => setup_window_select s top named = (bind_record s r, true)
     | none => setup_window_select s top named = (s, false))
    ∧ setup_window_select s 0 named = (s, false)
    ∧ setup_window_select s top 0 = (s, false) := by
  have key : ∀ (t n : Ptr),
      setup_window_select s t n =
        (match s.device_history.find? (qualifies t n) with
         | some r => (bind_record s r, true)
         | none => (s, false)) := by
    intro t n
    rw [setup_window_select_eq_scan, setup_scan_eq_find]
  refine ⟨?_, ?_, ?_⟩
  · cases h : s.device_history.find? (qualifies top named) with
    | none => simpa [h] using key top named
    | some r => simpa [h] using key top named
  · have hnone : s.device_history.find? (qualifies 0 named) = none := by
      refine List.find?_eq_none.mpr fun r _ => ?_
      simp [qualifies, window_match]
    simpa [hnone] using key 0 named
  · have hnone : s.device_history.find? (qualifies top 0) = none := by
      refine List.find?_eq_none.mpr fun r _ => ?_
      simp [qualifies, window_match]
    simpa [hnone] using key top 0

/-- C2: the intercepted `create_device` appends a record to the device history
if and only if all four extracted fields are non-null; whenever any field is
null the history length is unchanged; the original's result code is returned
unchanged in every case (an incomplete tuple raises no error). -/
theorem create_device_records_iff_complete (s : render_t) (hres : Int)
    (pSwapChainDesc ppSwapChain ppDevice ppImmediateContext : Option Ptr) :
    (create_device s hres pSwapChainDesc ppSwapChain ppDevice ppImmediateContext).2 = hres
    ∧ ((create_device s hres pSwapChainDesc ppSwapChain ppDevice ppImmediateContext).1.device_history
        = s.device_history ++ [extract_record pSwapChainDesc ppSwapChain ppDevice ppImmediateContext]
       ↔ ((extract_record pSwapChainDesc ppSwapChain ppDevice ppImmediateContext).window ≠ 0
          ∧ (extract_record pSwapChainDesc ppSwapChain ppDevice ppImmediateContext).chain ≠ 0
          ∧ (extract_record pSwapChainDesc ppSwapChain ppDevice ppImmediateContext).device ≠ 0
          ∧ (extract_record pSwapChainDesc ppSwapChain ppDevice ppImmediateContext).context ≠ 0))
    ∧ (create_device s hres pSwapChainDesc ppSwapChain ppDevice ppImmediateContext).1.device_history.length
        = s.device_history.length +
          (if (extract_record pSwapChainDesc ppSwapChain ppDevice ppImmediateContext).window ≠ 0
              ∧ (extract_record pSwapChainDesc ppSwapChain ppDevice ppImmediateContext).chain ≠ 0
              ∧ (extract_record pSwapChainDesc ppSwapChain ppDevice ppImmediateContext).device ≠ 0
              ∧ (extract_record pSwapChainDesc ppSwapChain ppDevice ppImmediateContext).context ≠ 0
           then 1 else 0) := by
  set r := extract_record pSwapChainDesc ppSwapChain ppDevice ppImmediateContext with hr
  by_cases hc : r.window ≠ 0 ∧ r.chain ≠ 0 ∧ r.device ≠ 0 ∧ r.context ≠ 0
  · have hb : (r.window != 0 && r.chain != 0 && r.device != 0 && r.context != 0) = true := by
      obtain ⟨h1, h2, h3, h4⟩ := hc
      simp [h1, h2, h3, h4]
    refine ⟨?_, ?_, ?_⟩ <;> simp [create_device, ← hr, hb, hc]
  · have hb : (r.window != 0 && r.chain != 0 && r.device != 0 && r.context != 0) = false := by
      rcases not_and_or.mp hc with h | h
      · simp [Nat.eq_zero_of_not_pos, show r.window = 0 from not_ne_iff.mp h]
      · rcases not_and_or.mp h with h | h
        · simp [show r.chain = 0 from not_ne_iff.mp h]
        · rcases not_and_or.mp h with h | h
          · simp [show r.device = 0 from not_ne_iff.mp h]
          · simp [show r.context = 0 from not_ne_iff.mp h]
    have hne : s.device_history ≠ s.device_history ++ [r] := by
      intro h
      have := congrArg List.length h
      simp at this
    refine ⟨?_, ?_, ?_⟩ <;> simp [create_device, ← hr, hb, hc]

/-- Models `update_listener` (render.cpp).  The register branch appends the
callback only when `std::find` does not locate it, returning whether a change
was logged.  The remove branch executes
`list.erase (std::remove (list.begin (), list.end (), l))`: when the value
occurs exactly once, `std::remove` shifts it to the last position and the
single-iterator `erase` deletes that last element, yielding the list without
the value; when the value is absent, `std::remove` returns `end ()` and
`vector::erase (end ())` is undefined behaviour; when it occurs more than once
(unreachable from these operations, which only append absent values) the
erased tail holds values `std::remove` leaves unspecified.  Both out-of-model
outcomes are `none`. -/
def update_listener (l : List Ptr) (c : Ptr) (remove : Bool) : Option (List Ptr × Bool) :=
  if remove then
    if l.count c = 1 then some (l.erase c, true) else none
  else if l.contains c then some (l, false)
  else some (l ++ [c], true)

/-- C3 (counter-evidence): removing a pointer that is not registered is not a
no-op; it reaches `vector::erase (end ())`, which is undefined behaviour (the
erase-remove idiom is missing its second argument in the source). -/
theorem update_listener_remove_absent_undefined :
    update_listener [] 5 true = none ∧ update_listener [3] 5 true = none := by
  decide

/-- One observable event of the detoured present call. -/
inductive present_event where
  | listener (f : Ptr) (chain sync flags : Nat)
  | original (chain sync flags : Nat)
deriving DecidableEq, Repr

/-- The detoured `chain_present` (render.cpp) as an event trace paired with the
value it returns.  `orig_ret` is the result produced by the saved
`chain_present_orig` for this call. -/
def chain_present (s : render_t) (pSwapChain : Ptr) (SyncInterval Flags : Nat)
    (orig_ret : Int) : List present_event × Int :=
  ((if s.enable_rendering then
      s.render_listeners.map (fun f => present_event.listener f pSwapChain SyncInterval Flags)
    else [])
    ++ [present_event.original pSwapChain SyncInterval Flags], orig_ret)

/-- C6: the present wrapper invokes the registered render listeners, in
registration order and with its own arguments, exactly when `enable_rendering`
is set; the saved original present is invoked with the wrapper's own arguments
in every case — its event closes the trace regardless of the flag and of the
listeners — and the original's return value is returned to the caller. -/
theorem chain_present_always_forwards (s : render_t) (pSwapChain : Ptr)
    (SyncInterval Flags : Nat) (orig_ret : Int) :
    (chain_present s pSwapChain SyncInterval Flags orig_ret).2 = orig_ret
    ∧ (chain_present s pSwapChain SyncInterval Flags orig_ret).1
        = (if s.enable_rendering then
             s.render_listeners.map (fun f => present_event.listener f pSwapChain SyncInterval Flags)
           else [])
          ++ [present_event.original pSwapChain SyncInterval Flags]
    ∧ (chain_present s pSwapChain SyncInterval Flags orig_ret).1.getLast?
        = some (present_event.original pSwapChain SyncInterval Flags)
    ∧ present_event.original pSwapChain SyncInterval Flags
        ∈ (chain_present s pSwapChain SyncInterval Flags orig_ret).1 := by
  refine ⟨rfl, rfl, ?_, ?_⟩
  · cases h : s.enable_rendering <;> simp [chain_present, h]
  · cases h : s.enable_rendering <;> simp [chain_present, h]

/-- A wrapped DirectInput device proxy (`new input_device<Keyboard> (orig)`,
input.cpp): the wrapped raw device pointer and the `Keyboard` template flag. -/
structure input_device_t where
  wrapped  : Ptr
  keyboard : Bool
deriving DecidableEq, Repr

/-- The singleton `input_t di` state of input.cpp.  `keyboard_disabled` and
`mouse_disabled` are the `disabled` members of the nested keyboard and mouse
structs; `keyboard_input` and `mouse_input` hold the stored device proxies
(`none` models the null pointer).  The `data_format` and `cooperative_flags`
members and the detoured `input_create_orig` pointer are not needed by the
properties below. -/
structure input_t where
  window                     : Ptr
  keyboard_disabled          : Bool
  keyboard_input             : Option input_device_t
  mouse_disabled             : Bool
  mouse_input                : Option input_device_t
  disable_dinput_key_pressed : Bool
  disable_dinput_key         : Nat
  disable_listeners          : List Ptr
deriving Repr

/-- `keyboard_callback` (input.cpp): reads the sampled byte of the configured
toggle scan code, exchanges it into `disable_dinput_key_pressed`, and if the
key was down last sample and is up now, flips both disabled flags together and
calls `handle_input_changed` — modelled by the returned Boolean. -/
def keyboard_callback (s : input_t) (keys : Nat → Nat) : input_t × Bool :=
  let disable : Bool := keys s.disable_dinput_key != 0
  let fired := s.disable_dinput_key_pressed && !disable
  let s1 := { s with disable_dinput_key_pressed := disable }
  if fired then
    ({ s1 with mouse_disabled := !s1.mouse_disabled,
               keyboard_disabled := !s1.keyboard_disabled }, true)
  else (s1, false)

/-- Feeds a sequence of per-poll samples of the toggle scan code (`true` =
down) through `keyboard_callback`, collecting for each sample whether the
mode flip and its notification fired. -/
def keyboard_samples (s : input_t) : List Bool → input_t × List Bool
  | [] => (s, [])
  | d :: rest =>
    let r := keyboard_callback s (fun _ => if d then 1 else 0)
    let t := keyboard_samples r.1 rest
    (t.1, r.2 :: t.2)

/-- C4: the flip (and its mode-change notification) fires exactly on a
down-to-up transition — previous sample down, current sample up — and flips
the keyboard-disabled and mouse-disabled flags together, leaving them
untouched on every other sample; from the initial state (toggle key not
pressed) the sample sequence down,down,up yields exactly one flip, at the
final up sample; up,up yields none; down,up,down,up yields exactly two. -/
theorem keyboard_callback_edge_detection (s : input_t) (keys : Nat → Nat)
    (window : Ptr) (kd md : Bool) (ki mi : Option input_device_t)
    (key : Nat) (ls : List Ptr) :
    (keyboard_callback s keys).2
        = (s.disable_dinput_key_pressed && !(keys s.disable_dinput_key != 0))
    ∧ (keyboard_callback s keys).1.keyboard_disabled
        = (if (keyboard_callback s keys).2 then !s.keyboard_disabled else s.keyboard_disabled)
    ∧ (keyboard_callback s keys).1.mouse_disabled
        = (if (keyboard_callback s keys).2 then !s.mouse_disabled else s.mouse_disabled)
    ∧ (keyboard_callback s keys).1.disable_dinput_key_pressed
        = (keys s.disable_dinput_key != 0)
    ∧ (keyboard_samples ⟨window, kd, ki, md, mi, false, key, ls⟩
          [true, true, false]).2 = [false, false, true]
    ∧ (keyboard_samples ⟨window, kd, ki, md, mi, false, key, ls⟩
          [false, false]).2 = [false, false]
    ∧ (keyboard_samples ⟨window, kd, ki, md, mi, false, key, ls⟩
          [true, false, true, false]).2 = [false, true, false, true] := by
  refine ⟨?_, ?_, ?_, ?_, ?_, ?_, ?_⟩
  · by_cases h : (s.disable_dinput_key_pressed && !(keys s.disable_dinput_key != 0)) = true <;>
      simp [keyboard_callback, h]
  · by_cases h : (s.disable_dinput_key_pressed && !(keys s.disable_dinput_key != 0)) = true <;>
      simp [keyboard_callback, h]
  · by_cases h : (s.disable_dinput_key_pressed && !(keys s.disable_dinput_key != 0)) = true <;>
      simp [keyboard_callback, h]
  · by_cases h : (s.disable_dinput_key_pressed && !(keys s.disable_dinput_key != 0)) = true <;>
      simp [keyboard_callback, h]
  · simp [keyboard_samples, keyboard_callback]
  · simp [keyboard_samples, keyboard_callback]
  · simp [keyboard_samples, keyboard_callback]

/-- Observable outcome of one `input_device<true>::GetDeviceState` call:
the returned code, the 256-byte buffer handed back to the caller (as a
function from scan code to byte), the updated global input state, and the
values passed to `keyboard_callback` (`none` when the callback did not run). -/
structure get_state_result where
  hres         : Int
  buffer       : Nat → Nat
  state        : input_t
  callback_arg : Option (Nat → Nat)

/-- `input_device<true>::GetDeviceState` (input.cpp), keyboard instantiation.
`hres` and `raw` are the result code of the wrapped device's call and the
buffer it filled.  On a non-`DI_OK` result the call returns immediately;
otherwise `keyboard_callback` observes the raw values and, if the
keyboard-disabled flag is set once the callback returns, `std::fill_n` zeroes
the 256 bytes delivered to the caller. -/
def input_device_GetDeviceState (s : input_t) (hres : Int) (raw : Nat → Nat) :
    get_state_result :=
  if hres ≠ 0 then ⟨hres, raw, s, none⟩
  else
    let r := keyboard_callback s raw
    ⟨hres,
     if r.1.keyboard_disabled then (fun i => if i < 256 then 0 else raw i) else raw,
     r.1, some raw⟩

/-- C5 (counter-evidence): with the keyboard-disabled flag set on entry and a
successful wrapped poll, the buffer delivered to the caller is not always
all-zero: when the sample is the toggle key's release, `keyboard_callback`
clears the flag before the zeroing test, and the true values pass through
(here scan code 7 reads back 1). -/
theorem GetDeviceState_masking_counterexample :
    ((⟨0, true, none, false, none, true, 5, []⟩ : input_t).keyboard_disabled = true)
    ∧ (input_device_GetDeviceState ⟨0, true, none, false, none, true, 5, []⟩ 0
        (fun i => if i = 7 then 1 else 0)).hres = 0
    ∧ (input_device_GetDeviceState ⟨0, true, none, false, none, true, 5, []⟩ 0
        (fun i => if i = 7 then 1 else 0)).buffer 7 = 1 := by
  refine ⟨rfl, rfl, rfl⟩

/-- C5 (amended): on a successful wrapped poll the proxied call returns the
success code and the observation callback receives the true, pre-zeroing
sampled values; the caller's buffer is zeroed over all 256 scan-code bytes
exactly when the keyboard-disabled flag is set after the observation callback
has processed the sample (the callback itself may flip the flag on a
toggle-key release), and is the raw data otherwise; on a failed wrapped poll
the error code is returned and neither callback invocation nor zeroing
occurs. -/
theorem GetDeviceState_masking (s : input_t) (hres : Int) (raw : Nat → Nat) :
    if hres = 0 then
      (input_device_GetDeviceState s hres raw).hres = 0
      ∧ (input_device_GetDeviceState s hres raw).callback_arg = some raw
      ∧ (input_device_GetDeviceState s hres raw).state = (keyboard_callback s raw).1
      ∧ (input_device_GetDeviceState s hres raw).buffer
          = (if (keyboard_callback s raw).1.keyboard_disabled
             then (fun i => if i < 256 then 0 else raw i) else raw)
    else
      (input_device_GetDeviceState s hres raw).hres = hres
      ∧ (input_device_GetDeviceState s hres raw).callback_arg = none
      ∧ (input_device_GetDeviceState s hres raw).state = s
      ∧ (input_device_GetDeviceState s hres raw).buffer = raw := by
  by_cases h : hres = 0
  · simp [input_device_GetDeviceState, h]
  · simp [input_device_GetDeviceState, h]

/-- Observable outcome of one `input_device<true>::GetDeviceData` call: the
returned code, the item count written through `pdwInOut`, the updated global
input state, the values passed to `keyboard_callback` (`none` when the re-poll
failed), whether the wrapped event queue was flushed and discarded, and
whether the call was forwarded to the wrapped `GetDeviceData` with the
caller's own arguments. -/
structure get_data_result where
  hres         : Int
  items        : Nat
  state        : input_t
  callback_arg : Option (Nat → Nat)
  drained      : Bool
  forwarded    : Bool

/-- `input_device<true>::GetDeviceData` (input.cpp), keyboard instantiation.
`poll_hres`/`raw` are the result and buffer of the internal snapshot re-poll,
`drain_hres` the result of the flushing `GetDeviceData (…, nullptr, INFINITE …)`
call, and `fwd_hres`/`fwd_items` the result and item count of the forwarded
call.  The keyboard path re-polls first, drives `keyboard_callback` on
success, then — if the keyboard-disabled flag is set once the callback
returns — flushes the wrapped queue and reports zero items; otherwise the call
is forwarded unchanged. -/
def input_device_GetDeviceData (s : input_t) (poll_hres : Int) (raw : Nat → Nat)
    (drain_hres fwd_hres : Int) (fwd_items : Nat) : get_data_result :=
  let pr := if poll_hres = 0 then ((keyboard_callback s raw).1, some raw) else (s, none)
  if pr.1.keyboard_disabled then ⟨drain_hres, 0, pr.1, pr.2, true, false⟩
  else ⟨fwd_hres, fwd_items, pr.1, pr.2, false, true⟩

/-- C9 (counter-evidence): with the keyboard-disabled flag set on entry, the
wrapped queue is not always drained with zero items reported: when the re-poll
samples the toggle key's release, `keyboard_callback` clears the flag before
the test and the call is forwarded, reporting the wrapped device's item count
(here 3). -/
theorem GetDeviceData_drain_counterexample :
    ((⟨0, true, none, false, none, true, 5, []⟩ : input_t).keyboard_disabled = true)
    ∧ (input_device_GetDeviceData ⟨0, true, none, false, none, true, 5, []⟩ 0
        (fun _ => 0) 0 0 3).drained = false
    ∧ (input_device_GetDeviceData ⟨0, true, none, false, none, true, 5, []⟩ 0
        (fun _ => 0) 0 0 3).forwarded = true
    ∧ (input_device_GetDeviceData ⟨0, true, none, false, none, true, 5, []⟩ 0
        (fun _ => 0) 0 0 3).items = 3 := by
  refine ⟨rfl, rfl, rfl, rfl⟩

/-- C9 (amended): the keyboard `GetDeviceData` path re-polls the wrapped
snapshot state first and invokes the observation callback with the polled
256-byte state exactly when that re-poll succeeds; if the keyboard-disabled
flag is set after the callback has processed the sample (the callback itself
may flip it on a toggle-key release), the wrapped buffered queue is drained
and discarded and zero items are reported to the caller; if the flag is then
clear, the call is forwarded to the wrapped `GetDeviceData` unchanged. -/
theorem GetDeviceData_drain (s : input_t) (poll_hres : Int) (raw : Nat → Nat)
    (drain_hres fwd_hres : Int) (fwd_items : Nat) :
    (input_device_GetDeviceData s poll_hres raw drain_hres fwd_hres fwd_items).callback_arg
        = (if poll_hres = 0 then some raw else none)
    ∧ (input_device_GetDeviceData s poll_hres raw drain_hres fwd_hres fwd_items).state
        = (if poll_hres = 0 then (keyboard_callback s raw).1 else s)
    ∧ (if (if poll_hres = 0 then (keyboard_callback s raw).1 else s).keyboard_disabled then
        (input_device_GetDeviceData s poll_hres raw drain_hres fwd_hres fwd_items).drained = true
        ∧ (input_device_GetDeviceData s poll_hres raw drain_hres fwd_hres fwd_items).forwarded = false
        ∧ (input_device_GetDeviceData s poll_hres raw drain_hres fwd_hres fwd_items).items = 0
        ∧ (input_device_GetDeviceData s poll_hres raw drain_hres fwd_hres fwd_items).hres = drain_hres
      else
        (input_device_GetDeviceData s poll_hres raw drain_hres fwd_hres fwd_items).drained = false
        ∧ (input_device_GetDeviceData s poll_hres raw drain_hres fwd_hres fwd_items).forwarded = true
        ∧ (input_device_GetDeviceData s poll_hres raw drain_hres fwd_hres fwd_items).items = fwd_items
        ∧ (input_device_GetDeviceData s poll_hres raw drain_hres fwd_hres fwd_items).hres = fwd_hres) := by
  by_cases hp : poll_hres = 0
  · by_cases hd : (keyboard_callback s raw).1.keyboard_disabled <;>
      simp [input_device_GetDeviceData, hp, hd]
  · by_cases hd : s.keyboard_disabled <;>
      simp [input_device_GetDeviceData, hp, hd]

/-- The `Data1` component of `guid_keyboard` (input.cpp); the two class ids
are modelled by these distinct numbers. -/
def guid_keyboard : Nat := 0x6F1D2B61

/-- The `Data1` component of `guid_mouse` (input.cpp). -/
def guid_mouse : Nat := 0x6F1D2B60

/-- Observable outcome of one `direct_input::CreateDevice` call: the returned
code, what the wrapper wrote into the caller's output slot (`none` = the
wrapper itself wrote nothing), whether the call was passed through to the
original with the caller's own slot, and the updated global input state. -/
structure create_device_result where
  hres        : Int
  written     : Option input_device_t
  passthrough : Bool
  state       : input_t
deriving Repr

/-- `direct_input::CreateDevice` (input.cpp): any class id other than the
system keyboard or mouse is passed straight through; otherwise the real
`CreateDevice` is invoked first into a local slot (`orig_hr` its result,
`orig_dev` the produced device), and only on `DI_OK` is a proxy constructed,
stored into the corresponding `di` field and written to the caller's slot. -/
def direct_input_CreateDevice (s : input_t) (rguid : Nat) (orig_hr : Int)
    (orig_dev : Ptr) : create_device_result :=
  if rguid ≠ guid_keyboard ∧ rguid ≠ guid_mouse then
    ⟨orig_hr, none, true, s⟩
  else if orig_hr = 0 then
    if rguid = guid_keyboard then
      ⟨orig_hr, some ⟨orig_dev, true⟩, false,
       { s with keyboard_input := some ⟨orig_dev, true⟩ }⟩
    else
      ⟨orig_hr, some ⟨orig_dev, false⟩, false,
       { s with mouse_input := some ⟨orig_dev, false⟩ }⟩
  else ⟨orig_hr, none, false, s⟩

/-- The detoured `input_create` (input.cpp): calls the real
`DirectInput8Create` into a local slot (`orig_hr` its result, `orig_obj` the
produced interface); only on `DI_OK` is a wrapping `direct_input` proxy
written to the caller's `ppvOut`.  The pair is the returned code and the
wrapped pointer the wrapper wrote (`none` = slot left unwritten). -/
def input_create (orig_hr : Int) (orig_obj : Ptr) : Int × Option Ptr :=
  if orig_hr = 0 then (orig_hr, some orig_obj) else (orig_hr, none)

/-- C10: both proxy-creation points are atomic on error: the original creation
runs first and its result code is always returned unchanged; on failure no
proxy is constructed, nothing is stored in the input state and the caller's
slot is left unwritten by the wrapper; on success a proxy wrapping the
original's device is written (and, for `CreateDevice`, recorded in the input
state); any class id other than the system keyboard and mouse is passed
through untouched. -/
theorem create_device_wrapping_atomic (s : input_t) (rguid : Nat)
    (orig_hr : Int) (orig_dev : Ptr) :
    (direct_input_CreateDevice s rguid orig_hr orig_dev).hres = orig_hr
    ∧ (if rguid ≠ guid_keyboard ∧ rguid ≠ guid_mouse then
        (direct_input_CreateDevice s rguid orig_hr orig_dev).passthrough = true
        ∧ (direct_input_CreateDevice s rguid orig_hr orig_dev).written = none
        ∧ (direct_input_CreateDevice s rguid orig_hr orig_dev).state = s
      else if orig_hr = 0 then
        (direct_input_CreateDevice s rguid orig_hr orig_dev).passthrough = false
        ∧ (if rguid = guid_keyboard then
            (direct_input_CreateDevice s rguid orig_hr orig_dev).written = some ⟨orig_dev, true⟩
            ∧ (direct_input_CreateDevice s rguid orig_hr orig_dev).state
                = { s with keyboard_input := some ⟨orig_dev, true⟩ }
          else
            (direct_input_CreateDevice s rguid orig_hr orig_dev).written = some ⟨orig_dev, false⟩
            ∧ (direct_input_CreateDevice s rguid orig_hr orig_dev).state
                = { s with mouse_input := some ⟨orig_dev, false⟩ })
      else
        (direct_input_CreateDevice s rguid orig_hr orig_dev).passthrough = false
        ∧ (direct_input_CreateDevice s rguid orig_hr orig_dev).written = none
        ∧ (direct_input_CreateDevice s rguid orig_hr orig_dev).state = s)
    ∧ input_create orig_hr orig_dev
        = (orig_hr, if orig_hr = 0 then some orig_dev else none) := by
  have split : ∀ P : Prop, (rguid ≠ guid_keyboard ∧ rguid ≠ guid_mouse → P) →
      (rguid = guid_keyboard → P) → (rguid = guid_mouse → P) → P := by
    intro P hthru hkb hms
    by_cases hg : rguid ≠ guid_keyboard ∧ rguid ≠ guid_mouse
    · exact hthru hg
    · rcases not_and_or.mp hg with h | h
      · exact hkb (not_not.mp h)
      · exact hms (not_not.mp h)
  refine ⟨?_, ?_, ?_⟩
  · refine split _ (fun hg => ?_) (fun hk => ?_) (fun hm => ?_)
    · simp [direct_input_CreateDevice, hg]
    · by_cases hr : orig_hr = 0 <;>
        simp [direct_input_CreateDevice, guid_keyboard, guid_mouse, hr, hk]
    · by_cases hr : orig_hr = 0 <;>
        simp [direct_input_CreateDevice, guid_keyboard, guid_mouse, hr, hm]
  · refine split _ (fun hg => ?_) (fun hk => ?_) (fun hm => ?_)
    · simp [direct_input_CreateDevice, hg]
    · by_cases hr : orig_hr = 0 <;>
        simp [direct_input_CreateDevice, guid_keyboard, guid_mouse, hr, hk]
    · by_cases hr : orig_hr = 0 <;>
        simp [direct_input_CreateDevice, guid_keyboard, guid_mouse, hr, hm]
  · by_cases hr : orig_hr = 0 <;> simp [input_create, hr]

/-- `enable_rendering` (render.cpp): `std::exchange` with the optionally
supplied new value; the previous value is returned. -/
def enable_rendering (s : render_t) (optional : Option Bool) : render_t × Bool :=
  ({ s with enable_rendering := optional.getD s.enable_rendering }, s.enable_rendering)

/-- `enable_messaging` (render.cpp). -/
def enable_messaging (s : render_t) (optional : Option Bool) : render_t × Bool :=
  ({ s with enable_messaging := optional.getD s.enable_messaging }, s.enable_messaging)

/-- `keyboard_enable` (input.cpp): the stored flag is the *disabled* one, so
the new stored value is the negation of the supplied value and the returned
value is the negation of the previously stored flag. -/
def keyboard_enable (s : input_t) (optional : Option Bool) : input_t × Bool :=
  ({ s with keyboard_disabled :=
      (match optional with | some v => !v | none => s.keyboard_disabled) },
   !s.keyboard_disabled)

/-- `mouse_enable` (input.cpp). -/
def mouse_enable (s : input_t) (optional : Option Bool) : input_t × Bool :=
  ({ s with mouse_disabled :=
      (match optional with | some v => !v | none => s.mouse_disabled) },
   !s.mouse_disabled)

/-- C8: each of the four enable accessors, called with an explicit value `v`,
returns the previously held value and leaves the (enabled-view) flag equal to
`v`; calling it again with the same `v` returns `v`; calling it with no value
changes nothing and returns the current value. -/
theorem enable_accessors_contract (s : render_t) (d : input_t) (v : Bool) :
    (enable_rendering s (some v)).2 = s.enable_rendering
    ∧ (enable_rendering s (some v)).1.enable_rendering = v
    ∧ (enable_rendering (enable_rendering s (some v)).1 (some v)).2 = v
    ∧ enable_rendering s none = (s, s.enable_rendering)
    ∧ (enable_messaging s (some v)).2 = s.enable_messaging
    ∧ (enable_messaging s (some v)).1.enable_messaging = v
    ∧ (enable_messaging (enable_messaging s (some v)).1 (some v)).2 = v
    ∧ enable_messaging s none = (s, s.enable_messaging)
    ∧ (keyboard_enable d (some v)).2 = !d.keyboard_disabled
    ∧ (keyboard_enable d (some v)).1.keyboard_disabled = !v
    ∧ (keyboard_enable (keyboard_enable d (some v)).1 (some v)).2 = v
    ∧ keyboard_enable d none = (d, !d.keyboard_disabled)
    ∧ (mouse_enable d (some v)).2 = !d.mouse_disabled
    ∧ (mouse_enable d (some v)).1.mouse_disabled = !v
    ∧ (mouse_enable (mouse_enable d (some v)).1 (some v)).2 = v
    ∧ mouse_enable d none = (d, !d.mouse_disabled) := by
  refine ⟨rfl, rfl, ?_, rfl, rfl, rfl, ?_, rfl, rfl, rfl, ?_, rfl, rfl, rfl, ?_, rfl⟩ <;>
    cases v <;> rfl

/-- Windows message id `WM_KEYDOWN`. -/
def WM_KEYDOWN : Nat := 0x0100
/-- Windows message id `WM_KEYUP`. -/
def WM_KEYUP : Nat := 0x0101
/-- Windows message id `WM_CHAR`. -/
def WM_CHAR : Nat := 0x0102
/-- Windows message id `WM_MOUSEWHEEL`. -/
def WM_MOUSEWHEEL : Nat := 0x020A
/-- Windows message id `WM_MOUSEHWHEEL` (written `0x020E` in the source). -/
def WM_MOUSEHWHEEL : Nat := 0x020E
/-- Windows message id `WM_LBUTTONDOWN`. -/
def WM_LBUTTONDOWN : Nat := 0x0201
/-- Windows message id `WM_LBUTTONUP`. -/
def WM_LBUTTONUP : Nat := 0x0202
/-- Windows message id `WM_LBUTTONDBLCLK`. -/
def WM_LBUTTONDBLCLK : Nat := 0x0203
/-- Windows message id `WM_RBUTTONDOWN`. -/
def WM_RBUTTONDOWN : Nat := 0x0204
/-- Windows message id `WM_RBUTTONUP`. -/
def WM_RBUTTONUP : Nat := 0x0205
/-- Windows message id `WM_RBUTTONDBLCLK`. -/
def WM_RBUTTONDBLCLK : Nat := 0x0206
/-- Windows message id `WM_MBUTTONDOWN`. -/
def WM_MBUTTONDOWN : Nat := 0x0207
/-- Windows message id `WM_MBUTTONUP`. -/
def WM_MBUTTONUP : Nat := 0x0208
/-- Windows message id `WM_MBUTTONDBLCLK`. -/
def WM_MBUTTONDBLCLK : Nat := 0x0209
/-- Windows message id `WM_XBUTTONDOWN`. -/
def WM_XBUTTONDOWN : Nat := 0x020B
/-- Windows message id `WM_XBUTTONUP`. -/
def WM_XBUTTONUP : Nat := 0x020C
/-- Windows message id `WM_XBUTTONDBLCLK`. -/
def WM_XBUTTONDBLCLK : Nat := 0x020D

/-- The fixed list iterated by `window_proc` (render.cpp), in source order:
a message equal to any entry is consumed with result 0. -/
def swallowed_messages : List Nat :=
  [WM_LBUTTONDOWN, WM_LBUTTONDBLCLK, WM_RBUTTONDOWN, WM_RBUTTONDBLCLK,
   WM_MBUTTONDOWN, WM_MBUTTONDBLCLK, WM_XBUTTONDOWN, WM_XBUTTONDBLCLK,
   WM_LBUTTONUP, WM_RBUTTONUP, WM_MBUTTONUP, WM_XBUTTONUP,
   WM_MOUSEWHEEL, WM_MOUSEHWHEEL,
   WM_KEYDOWN, WM_KEYUP, WM_CHAR]

/-- One observable event of the subclassed window procedure. -/
inductive msg_event where
  | listener (f : Ptr) (hwnd msg : Nat) (wParam lParam : Int)
  | forwarded (hwnd msg : Nat) (wParam lParam : Int)
deriving DecidableEq, Repr

/-- The subclassed `window_proc` (render.cpp) as an event trace paired with
the `LRESULT` it returns.  `orig` is the saved original window procedure
(invoked through `CallWindowProc`). -/
def window_proc (s : render_t) (orig : Nat → Nat → Int → Int → Int)
    (hWnd msg : Nat) (wParam lParam : Int) : List msg_event × Int :=
  let observed :=
    if s.enable_messaging then
      s.message_listeners.map (fun f => msg_event.listener f hWnd msg wParam lParam)
    else []
  if swallowed_messages.contains msg then (observed, 0)
  else (observed ++ [msg_event.forwarded hWnd msg wParam lParam], orig hWnd msg wParam lParam)

/-- C7: if `enable_messaging` is set, every registered message listener is
invoked in registration order before the filtering decision, so listeners
observe the message even when it is swallowed; every message in the fixed
swallow list returns result zero without reaching the original procedure, and
every other message is forwarded unmodified to the saved original procedure
with its result returned. -/
theorem window_proc_swallow_and_forward (s : render_t)
    (orig : Nat → Nat → Int → Int → Int) (hWnd msg : Nat) (wParam lParam : Int) :
    (if swallowed_messages.contains msg then
      (window_proc s orig hWnd msg wParam lParam).2 = 0
      ∧ (window_proc s orig hWnd msg wParam lParam).1
          = (if s.enable_messaging then
               s.message_listeners.map (fun f => msg_event.listener f hWnd msg wParam lParam)
             else [])
    else
      (window_proc s orig hWnd msg wParam lParam).2 = orig hWnd msg wParam lParam
      ∧ (window_proc s orig hWnd msg wParam lParam).1
          = (if s.enable_messaging then
               s.message_listeners.map (fun f => msg_event.listener f hWnd msg wParam lParam)
             else [])
            ++ [msg_event.forwarded hWnd msg wParam lParam])
    ∧ (msg_event.forwarded hWnd msg wParam lParam ∈ (window_proc s orig hWnd msg wParam lParam).1
       ↔ swallowed_messages.contains msg = false) := by
  by_cases hm : msg ∈ swallowed_messages
  · refine ⟨by simp [window_proc, hm], ?_⟩
    cases he : s.enable_messaging <;> simp [window_proc, hm, he]
  · refine ⟨by simp [window_proc, hm], ?_⟩
    cases he : s.enable_messaging <;> simp [window_proc, hm, he]
